import Mathlib

/-!
Shallow embedding of the touch-server UDP input relay
(src/touch-server/src/main.rs): dual-format message decoding (compact
binary and JSON), the sequence-number acknowledgement and deduplication
layer, session and heartbeat tracking, and the input-mapping state
machine.

Modelling conventions:
- Rust f32 values are modelled as exact rational numbers; every finite
  f32 is a rational, f32 comparisons on values are exact, and every
  float operation that a verified theorem depends on is exact at the
  inputs that theorem uses.  NaN and infinity payloads (exponent 255)
  are mapped to 0; no theorem depends on such payloads.
- Bytes are natural numbers (u8 values are below 256 in the running
  program; theorems that need this carry it as a hypothesis or hold for
  all naturals).
- Calls into the enigo input-synthesis sink and thread sleeps are
  modelled as an ordered trace of Intent values.
- Rust indexing and slicing panic when out of bounds; the binary decoder
  is therefore embedded in the Except monad, where the error value marks
  an out-of-bounds access, and the absence of such accesses is a proved
  theorem rather than an assumption.
-/

namespace TouchServer

/-- Modifier-key flags (struct Modifiers in main.rs). -/
structure Modifiers where
  shift : Bool
  control : Bool
  alt : Bool
  command : Bool
deriving DecidableEq, Repr

/-- Modifiers::is_empty. -/
def Modifiers.is_empty (m : Modifiers) : Bool :=
  !m.shift && !m.control && !m.alt && !m.command

/-- Modifiers::from_byte: bitmask 0x01 shift, 0x02 control, 0x04 alt, 0x08 command. -/
def Modifiers.from_byte (b : Nat) : Modifiers :=
  { shift := b &&& 1 != 0
    control := b &&& 2 != 0
    alt := b &&& 4 != 0
    command := b &&& 8 != 0 }

/-- Modifiers::default(): all flags false. -/
def Modifiers.mk0 : Modifiers :=
  { shift := false, control := false, alt := false, command := false }

/-- The enigo Key constructors used by main.rs. -/
inductive Key where
  | Shift | Control | Alt | Meta
  | LShift | LControl | RShift | RControl
  | Space | Return | Tab | Escape | Backspace | Delete | CapsLock
  | UpArrow | DownArrow | LeftArrow | RightArrow
  | Home | End | PageUp | PageDown
  | F1 | F2 | F3 | F4 | F5 | F6 | F7 | F8 | F9 | F10 | F11 | F12
  | Numpad0 | Numpad1 | Numpad2 | Numpad3 | Numpad4
  | Numpad5 | Numpad6 | Numpad7 | Numpad8 | Numpad9
  | Add | Subtract | Multiply | Divide | Decimal
  | Unicode (c : Char)
deriving Repr

/-- Injective numeric code for Key, used only to build the decidable
equality instance below with a small proof term. -/
def Key.code : Key → Nat
  | .Shift => 0
  | .Control => 1
  | .Alt => 2
  | .Meta => 3
  | .LShift => 4
  | .LControl => 5
  | .RShift => 6
  | .RControl => 7
  | .Space => 8
  | .Return => 9
  | .Tab => 10
  | .Escape => 11
  | .Backspace => 12
  | .Delete => 13
  | .CapsLock => 14
  | .UpArrow => 15
  | .DownArrow => 16
  | .LeftArrow => 17
  | .RightArrow => 18
  | .Home => 19
  | .End => 20
  | .PageUp => 21
  | .PageDown => 22
  | .F1 => 23
  | .F2 => 24
  | .F3 => 25
  | .F4 => 26
  | .F5 => 27
  | .F6 => 28
  | .F7 => 29
  | .F8 => 30
  | .F9 => 31
  | .F10 => 32
  | .F11 => 33
  | .F12 => 34
  | .Numpad0 => 35
  | .Numpad1 => 36
  | .Numpad2 => 37
  | .Numpad3 => 38
  | .Numpad4 => 39
  | .Numpad5 => 40
  | .Numpad6 => 41
  | .Numpad7 => 42
  | .Numpad8 => 43
  | .Numpad9 => 44
  | .Add => 45
  | .Subtract => 46
  | .Multiply => 47
  | .Divide => 48
  | .Decimal => 49
  | .Unicode c => c.toNat + 50

/-- Left inverse of Key.code. -/
def Key.ofCode : Nat → Key
  | 0 => .Shift
  | 1 => .Control
  | 2 => .Alt
  | 3 => .Meta
  | 4 => .LShift
  | 5 => .LControl
  | 6 => .RShift
  | 7 => .RControl
  | 8 => .Space
  | 9 => .Return
  | 10 => .Tab
  | 11 => .Escape
  | 12 => .Backspace
  | 13 => .Delete
  | 14 => .CapsLock
  | 15 => .UpArrow
  | 16 => .DownArrow
  | 17 => .LeftArrow
  | 18 => .RightArrow
  | 19 => .Home
  | 20 => .End
  | 21 => .PageUp
  | 22 => .PageDown
  | 23 => .F1
  | 24 => .F2
  | 25 => .F3
  | 26 => .F4
  | 27 => .F5
  | 28 => .F6
  | 29 => .F7
  | 30 => .F8
  | 31 => .F9
  | 32 => .F10
  | 33 => .F11
  | 34 => .F12
  | 35 => .Numpad0
  | 36 => .Numpad1
  | 37 => .Numpad2
  | 38 => .Numpad3
  | 39 => .Numpad4
  | 40 => .Numpad5
  | 41 => .Numpad6
  | 42 => .Numpad7
  | 43 => .Numpad8
  | 44 => .Numpad9
  | 45 => .Add
  | 46 => .Subtract
  | 47 => .Multiply
  | 48 => .Divide
  | 49 => .Decimal
  | n => .Unicode (Char.ofNat (n - 50))

instance : DecidableEq Key := fun a b =>
  if h : Key.code a = Key.code b then
    isTrue (by
      have hinv : ∀ k : Key, Key.ofCode (Key.code k) = k := by
        intro k
        cases k <;> try rfl
        case Unicode c =>
          show Key.Unicode (Char.ofNat (c.toNat + 50 - 50)) = Key.Unicode c
          rw [Nat.add_sub_cancel, Char.ofNat_toNat]
      rw [← hinv a, ← hinv b, h])
  else isFalse (fun he => h (congrArg Key.code he))

/-- Mouse button / scroll kinds (enum MouseAction in main.rs). -/
inductive MouseAction where
  | Left | Right | Middle | Back | Forward | ScrollUp | ScrollDown
deriving DecidableEq, Repr

/-- The enigo Button constructors used by main.rs. -/
inductive MouseButton where
  | Left | Right | Middle | Back | Forward
deriving DecidableEq, Repr

/-- Keyboard key or mouse action (enum ParsedInput in main.rs). -/
inductive ParsedInput where
  | Keyboard (k : Key)
  | Mouse (a : MouseAction)
deriving DecidableEq, Repr

/-- The enigo Direction argument. -/
inductive Direction where
  | Press | Release | Click
deriving DecidableEq, Repr

/-- One primitive call into the input-synthesis sink, or a sleep.
Handlers emit an ordered list of these. -/
inductive Intent where
  | key (k : Key) (d : Direction)
  | button (b : MouseButton) (d : Direction)
  | scroll (amount : Int)
  | moveMouse (x y : Int)
  | sleep (ms : Nat)
deriving DecidableEq, Repr

/-- DEADZONE: the exact rational value of the f32 literal 0.2,
13421773 / 67108864 (written with mkRat to keep it computable). -/
def DEADZONE : ℚ := mkRat 13421773 67108864

/-- SMOOTH_FACTOR: the exact rational value of the f32 literal 0.4,
13421773 / 33554432 (written with mkRat to keep it computable). -/
def SMOOTH_FACTOR : ℚ := mkRat 13421773 33554432

/-- HEARTBEAT_TIMEOUT_SECS. -/
def HEARTBEAT_TIMEOUT_SECS : Nat := 3

/-- SKILL_MOUSE_RADIUS (i32 constant 800). -/
def SKILL_MOUSE_RADIUS : Int := 800

/-- SKILL_CLICK_DELAY_MS. -/
def SKILL_CLICK_DELAY_MS : Nat := 50

/-- SKILL_CLICK_HOLD_MS. -/
def SKILL_CLICK_HOLD_MS : Nat := 100

/-- MAX_PROCESSED_SEQS: capacity of the dedup window. -/
def MAX_PROCESSED_SEQS : Nat := 100

/-- binary_protocol::MAGIC (0xAB). -/
def MAGIC : Nat := 0xAB

/-- char::to_ascii_lowercase: lowers ASCII capital letters only. -/
def lower_char (c : Char) : Char :=
  if 'A' ≤ c ∧ c ≤ 'Z' then Char.ofNat (c.toNat + 32) else c

/-- str::to_lowercase, restricted to its ASCII behaviour.  The Rust
function also lowers non-ASCII letters; every key identifier any
verified theorem uses is ASCII, where the two agree. -/
def str_to_lower (s : String) : String :=
  String.mk (s.toList.map lower_char)

/-- String::from_utf8_lossy, as a codepoint decoder.  Well-formed UTF-8
is decoded exactly (including the overlong, surrogate and range checks
Rust performs); each rejected byte of an ill-formed sequence becomes
U+FFFD, which approximates the replacement granularity of the Rust
function (one U+FFFD per maximal ill-formed subsequence).  Every key any
verified theorem uses is ASCII, where the two agree byte for byte. -/
def utf8_chars : List Nat → List Char
  | [] => []
  | b :: bs =>
    if b < 0x80 then Char.ofNat b :: utf8_chars bs
    else if 0xC2 ≤ b ∧ b ≤ 0xDF then
      match h : bs with
      | b1 :: bs' =>
        if 0x80 ≤ b1 ∧ b1 ≤ 0xBF then
          Char.ofNat ((b - 0xC0) * 64 + (b1 - 0x80)) :: utf8_chars bs'
        else Char.ofNat 0xFFFD :: utf8_chars bs
      | [] => [Char.ofNat 0xFFFD]
    else if 0xE0 ≤ b ∧ b ≤ 0xEF then
      match h : bs with
      | b1 :: b2 :: bs' =>
        if (0x80 ≤ b1 ∧ b1 ≤ 0xBF) ∧ (0x80 ≤ b2 ∧ b2 ≤ 0xBF) ∧
            (b ≠ 0xE0 ∨ 0xA0 ≤ b1) ∧ (b ≠ 0xED ∨ b1 ≤ 0x9F) then
          Char.ofNat ((b - 0xE0) * 4096 + (b1 - 0x80) * 64 + (b2 - 0x80)) :: utf8_chars bs'
        else Char.ofNat 0xFFFD :: utf8_chars bs
      | _ => [Char.ofNat 0xFFFD]
    else if 0xF0 ≤ b ∧ b ≤ 0xF4 then
      match h : bs with
      | b1 :: b2 :: b3 :: bs' =>
        if (0x80 ≤ b1 ∧ b1 ≤ 0xBF) ∧ (0x80 ≤ b2 ∧ b2 ≤ 0xBF) ∧
            (0x80 ≤ b3 ∧ b3 ≤ 0xBF) ∧
            (b ≠ 0xF0 ∨ 0x90 ≤ b1) ∧ (b ≠ 0xF4 ∨ b1 ≤ 0x8F) then
          Char.ofNat ((b - 0xF0) * 262144 + (b1 - 0x80) * 4096 +
            (b2 - 0x80) * 64 + (b3 - 0x80)) :: utf8_chars bs'
        else Char.ofNat 0xFFFD :: utf8_chars bs
      | _ => [Char.ofNat 0xFFFD]
    else Char.ofNat 0xFFFD :: utf8_chars bs
termination_by l => l.length
decreasing_by all_goals (subst_vars; try simp; try omega)

/-- String::from_utf8_lossy followed by to_string. -/
def utf8_lossy (bs : List Nat) : String :=
  String.mk (utf8_chars bs)

/-- Conversion (b as char).to_string() used by the legacy binary
layouts: a u8 cast to char is the codepoint of the byte value. -/
def char_string (b : Nat) : String :=
  String.mk [Char.ofNat b]

/-- parse_key from main.rs: pure lookup from a key identifier to a
keyboard key or mouse action, with a single-byte-character fallback. -/
def parse_key (key_str : String) : Option ParsedInput :=
  let key_lower := str_to_lower key_str
  match key_lower with
  | "mouse_left" => some (.Mouse .Left)
  | "mouse_right" => some (.Mouse .Right)
  | "mouse_middle" => some (.Mouse .Middle)
  | "mouse_back" => some (.Mouse .Back)
  | "mouse_forward" => some (.Mouse .Forward)
  | "scroll_up" => some (.Mouse .ScrollUp)
  | "scroll_down" => some (.Mouse .ScrollDown)
  | "lshift" => some (.Keyboard .LShift)
  | "lctrl" => some (.Keyboard .LControl)
  | "lcontrol" => some (.Keyboard .LControl)
  | "lalt" => some (.Keyboard .Alt)
  | "lcmd" => some (.Keyboard .Meta)
  | "lmeta" => some (.Keyboard .Meta)
  | "lwin" => some (.Keyboard .Meta)
  | "rshift" => some (.Keyboard .RShift)
  | "rctrl" => some (.Keyboard .RControl)
  | "rcontrol" => some (.Keyboard .RControl)
  | "ralt" => some (.Keyboard .Alt)
  | "rcmd" => some (.Keyboard .Meta)
  | "rmeta" => some (.Keyboard .Meta)
  | "rwin" => some (.Keyboard .Meta)
  | "shift" => some (.Keyboard .Shift)
  | "ctrl" => some (.Keyboard .Control)
  | "control" => some (.Keyboard .Control)
  | "alt" => some (.Keyboard .Alt)
  | "cmd" => some (.Keyboard .Meta)
  | "meta" => some (.Keyboard .Meta)
  | "win" => some (.Keyboard .Meta)
  | "space" => some (.Keyboard .Space)
  | "enter" => some (.Keyboard .Return)
  | "return" => some (.Keyboard .Return)
  | "tab" => some (.Keyboard .Tab)
  | "escape" => some (.Keyboard .Escape)
  | "esc" => some (.Keyboard .Escape)
  | "backspace" => some (.Keyboard .Backspace)
  | "delete" => some (.Keyboard .Delete)
  | "capslock" => some (.Keyboard .CapsLock)
  | "up" => some (.Keyboard .UpArrow)
  | "down" => some (.Keyboard .DownArrow)
  | "left" => some (.Keyboard .LeftArrow)
  | "right" => some (.Keyboard .RightArrow)
  | "home" => some (.Keyboard .Home)
  | "end" => some (.Keyboard .End)
  | "pageup" => some (.Keyboard .PageUp)
  | "pagedown" => some (.Keyboard .PageDown)
  | "f1" => some (.Keyboard .F1)
  | "f2" => some (.Keyboard .F2)
  | "f3" => some (.Keyboard .F3)
  | "f4" => some (.Keyboard .F4)
  | "f5" => some (.Keyboard .F5)
  | "f6" => some (.Keyboard .F6)
  | "f7" => some (.Keyboard .F7)
  | "f8" => some (.Keyboard .F8)
  | "f9" => some (.Keyboard .F9)
  | "f10" => some (.Keyboard .F10)
  | "f11" => some (.Keyboard .F11)
  | "f12" => some (.Keyboard .F12)
  | "num0" => some (.Keyboard .Numpad0)
  | "numpad0" => some (.Keyboard .Numpad0)
  | "num1" => some (.Keyboard .Numpad1)
  | "numpad1" => some (.Keyboard .Numpad1)
  | "num2" => some (.Keyboard .Numpad2)
  | "numpad2" => some (.Keyboard .Numpad2)
  | "num3" => some (.Keyboard .Numpad3)
  | "numpad3" => some (.Keyboard .Numpad3)
  | "num4" => some (.Keyboard .Numpad4)
  | "numpad4" => some (.Keyboard .Numpad4)
  | "num5" => some (.Keyboard .Numpad5)
  | "numpad5" => some (.Keyboard .Numpad5)
  | "num6" => some (.Keyboard .Numpad6)
  | "numpad6" => some (.Keyboard .Numpad6)
  | "num7" => some (.Keyboard .Numpad7)
  | "numpad7" => some (.Keyboard .Numpad7)
  | "num8" => some (.Keyboard .Numpad8)
  | "numpad8" => some (.Keyboard .Numpad8)
  | "num9" => some (.Keyboard .Numpad9)
  | "numpad9" => some (.Keyboard .Numpad9)
  | "numadd" => some (.Keyboard .Add)
  | "numplus" => some (.Keyboard .Add)
  | "numsub" => some (.Keyboard .Subtract)
  | "numminus" => some (.Keyboard .Subtract)
  | "nummul" => some (.Keyboard .Multiply)
  | "nummultiply" => some (.Keyboard .Multiply)
  | "numdiv" => some (.Keyboard .Divide)
  | "numdivide" => some (.Keyboard .Divide)
  | "numdec" => some (.Keyboard .Decimal)
  | "numdecimal" => some (.Keyboard .Decimal)
  | "numenter" => some (.Keyboard .Return)
  | s =>
    if s.utf8ByteSize = 1 then
      s.toList.head?.map (fun c => ParsedInput.Keyboard (Key.Unicode (lower_char c)))
    else none

/-- mouse_action_to_button: scroll actions are not buttons. -/
def mouse_action_to_button (a : MouseAction) : Option MouseButton :=
  match a with
  | .Left => some .Left
  | .Right => some .Right
  | .Middle => some .Middle
  | .Back => some .Back
  | .Forward => some .Forward
  | .ScrollUp => none
  | .ScrollDown => none

/-- The decoded control message (enum InputMessage in main.rs).  Float
fields are the exact rational values of the decoded f32 payloads. -/
inductive InputMessage where
  | Joystick (x y : ℚ)
  | Button (key : String) (pressed : Bool) (modifiers : Option Modifiers) (seq : Option Nat)
  | SkillStart (key : String) (offset_x offset_y : Int) (modifiers : Option Modifiers)
  | SkillDrag (key : String) (dx dy : ℚ) (distance : ℚ) (smooth : Bool)
  | SkillRelease (key : String) (dx dy : ℚ) (seq : Option Nat)
  | SkillCancel (key : String) (seq : Option Nat)
  | Ping (timestamp : Nat)
deriving DecidableEq, Repr

/-- f32::from_le_bytes, as an exact rational.  Finite encodings decode
to their exact value; exponent-255 encodings (NaN and infinity, which
have no rational value) are mapped to 0 — no verified claim depends on
such payloads. -/
def f32_from_le (b0 b1 b2 b3 : Nat) : ℚ :=
  let bits := (b0 % 256) + 256 * (b1 % 256) + 65536 * (b2 % 256) + 16777216 * (b3 % 256)
  let s : ℚ := if bits / 2147483648 % 2 = 1 then -1 else 1
  let e := bits / 8388608 % 256
  let m := bits % 8388608
  if e = 0 then s * m / 2 ^ 149
  else if e = 255 then 0
  else s * (8388608 + m) * 2 ^ e / 2 ^ 150

/-- u32::from_le_bytes. -/
def u32_from_le (b0 b1 b2 b3 : Nat) : Nat :=
  b0 + 256 * b1 + 65536 * b2 + 16777216 * b3

/-- u64::from_le_bytes. -/
def u64_from_le (b0 b1 b2 b3 b4 b5 b6 b7 : Nat) : Nat :=
  b0 + 256 * b1 + 65536 * b2 + 16777216 * b3 + 4294967296 * b4 +
    1099511627776 * b5 + 281474976710656 * b6 + 72057594037927936 * b7

/-- u32::to_le_bytes. -/
def u32_to_le (s : Nat) : List Nat :=
  [s % 256, s / 256 % 256, s / 65536 % 256, s / 16777216 % 256]

/-- u64::to_le_bytes. -/
def u64_to_le (t : Nat) : List Nat :=
  [t % 256, t / 256 % 256, t / 65536 % 256, t / 16777216 % 256,
   t / 4294967296 % 256, t / 1099511627776 % 256,
   t / 281474976710656 % 256, t / 72057594037927936 % 256]

/-- Rust slice indexing buf[i]: in bounds yields the byte, out of
bounds panics (the Except error). -/
def idx (buf : List Nat) (i : Nat) : Except Unit Nat :=
  match buf.get? i with
  | some b => .ok b
  | none => .error ()

/-- Rust range slicing buf[a..b]: panics unless a ≤ b ≤ buf.len(). -/
def slice (buf : List Nat) (a b : Nat) : Except Unit (List Nat) :=
  if a ≤ b ∧ b ≤ buf.length then .ok ((buf.drop a).take (b - a)) else .error ()

/-- parse_binary_message from main.rs, embedded in the Except monad:
the error value marks an out-of-bounds index or slice (a Rust panic),
Except.ok none is the None result (dropped datagram).  Branch structure,
length guards and byte accesses mirror the source line by line. -/
def parse_binary_message (buf : List Nat) : Except Unit (Option (InputMessage × Option Nat)) :=
  if buf.length < 2 then pure none
  else do
    let b0 ← idx buf 0
    if b0 ≠ MAGIC then pure none
    else do
      let t ← idx buf 1
      if t = 0x01 ∧ 10 ≤ buf.length then do
        let x0 ← idx buf 2
        let x1 ← idx buf 3
        let x2 ← idx buf 4
        let x3 ← idx buf 5
        let y0 ← idx buf 6
        let y1 ← idx buf 7
        let y2 ← idx buf 8
        let y3 ← idx buf 9
        pure (some (.Joystick (f32_from_le x0 x1 x2 x3) (f32_from_le y0 y1 y2 y3), none))
      else if t = 0x02 ∧ 4 ≤ buf.length then do
        let kl ← idx buf 2
        if buf.length < 4 + kl + 2 then do
          let k ← idx buf 2
          let p ← idx buf 3
          pure (some (.Button (char_string k) (p != 0) none none, none))
        else do
          let ks ← slice buf 3 (3 + kl)
          let p ← idx buf (3 + kl)
          let m ← idx buf (4 + kl)
          let mods := Modifiers.from_byte m
          pure (some (.Button (utf8_lossy ks) (p != 0)
            (if mods.is_empty then none else some mods) none, none))
      else if t = 0x12 ∧ 9 ≤ buf.length then do
        let s0 ← idx buf 2
        let s1 ← idx buf 3
        let s2 ← idx buf 4
        let s3 ← idx buf 5
        let seq := u32_from_le s0 s1 s2 s3
        let kl ← idx buf 6
        if buf.length < 9 + kl then pure none
        else do
          let ks ← slice buf 7 (7 + kl)
          let p ← idx buf (7 + kl)
          let m ← idx buf (8 + kl)
          let mods := Modifiers.from_byte m
          pure (some (.Button (utf8_lossy ks) (p != 0)
            (if mods.is_empty then none else some mods) (some seq), some seq))
      else if t = 0x03 ∧ 3 ≤ buf.length then do
        let kl ← idx buf 2
        if buf.length < 3 + kl + 1 then do
          let k ← idx buf 2
          pure (some (.SkillStart (char_string k) 0 0 none, none))
        else do
          let ks ← slice buf 3 (3 + kl)
          let m ← idx buf (3 + kl)
          let mods := Modifiers.from_byte m
          pure (some (.SkillStart (utf8_lossy ks) 0 0
            (if mods.is_empty then none else some mods), none))
      else if t = 0x04 ∧ 15 ≤ buf.length then do
        let k ← idx buf 2
        let d0 ← idx buf 3
        let d1 ← idx buf 4
        let d2 ← idx buf 5
        let d3 ← idx buf 6
        let e0 ← idx buf 7
        let e1 ← idx buf 8
        let e2 ← idx buf 9
        let e3 ← idx buf 10
        let m0 ← idx buf 11
        let m1 ← idx buf 12
        let m2 ← idx buf 13
        let m3 ← idx buf 14
        let smooth := ((buf.get? 15).map (fun b => b != 0)).getD true
        pure (some (.SkillDrag (char_string k) (f32_from_le d0 d1 d2 d3)
          (f32_from_le e0 e1 e2 e3) (f32_from_le m0 m1 m2 m3) smooth, none))
      else if t = 0x05 ∧ 11 ≤ buf.length then do
        let k ← idx buf 2
        let d0 ← idx buf 3
        let d1 ← idx buf 4
        let d2 ← idx buf 5
        let d3 ← idx buf 6
        let e0 ← idx buf 7
        let e1 ← idx buf 8
        let e2 ← idx buf 9
        let e3 ← idx buf 10
        pure (some (.SkillRelease (char_string k) (f32_from_le d0 d1 d2 d3)
          (f32_from_le e0 e1 e2 e3) none, none))
      else if t = 0x15 ∧ 15 ≤ buf.length then do
        let s0 ← idx buf 2
        let s1 ← idx buf 3
        let s2 ← idx buf 4
        let s3 ← idx buf 5
        let seq := u32_from_le s0 s1 s2 s3
        let k ← idx buf 6
        let d0 ← idx buf 7
        let d1 ← idx buf 8
        let d2 ← idx buf 9
        let d3 ← idx buf 10
        let e0 ← idx buf 11
        let e1 ← idx buf 12
        let e2 ← idx buf 13
        let e3 ← idx buf 14
        pure (some (.SkillRelease (char_string k) (f32_from_le d0 d1 d2 d3)
          (f32_from_le e0 e1 e2 e3) (some seq), some seq))
      else if t = 0x06 ∧ 3 ≤ buf.length then do
        let k ← idx buf 2
        pure (some (.SkillCancel (char_string k) none, none))
      else if t = 0x16 ∧ 7 ≤ buf.length then do
        let s0 ← idx buf 2
        let s1 ← idx buf 3
        let s2 ← idx buf 4
        let s3 ← idx buf 5
        let seq := u32_from_le s0 s1 s2 s3
        let k ← idx buf 6
        pure (some (.SkillCancel (char_string k) (some seq), some seq))
      else if t = 0x07 ∧ 10 ≤ buf.length then do
        let t0 ← idx buf 2
        let t1 ← idx buf 3
        let t2 ← idx buf 4
        let t3 ← idx buf 5
        let t4 ← idx buf 6
        let t5 ← idx buf 7
        let t6 ← idx buf 8
        let t7 ← idx buf 9
        pure (some (.Ping (u64_from_le t0 t1 t2 t3 t4 t5 t6 t7), none))
      else pure none

/-- parse_binary_message with the panic case projected away; the no-
panic theorem below shows the error case is unreachable, so this is
the Option-valued decoder the receive loop consults. -/
def parse_bin (buf : List Nat) : Option (InputMessage × Option Nat) :=
  match parse_binary_message buf with
  | .ok r => r
  | .error _ => none

/-- build_binary_pong: [MAGIC, MSG_PONG, timestamp le64]. -/
def build_binary_pong (timestamp : Nat) : List Nat :=
  MAGIC :: 0x08 :: u64_to_le timestamp

/-- build_binary_ack: [MAGIC, MSG_ACK, seq le32]. -/
def build_binary_ack (seq : Nat) : List Nat :=
  MAGIC :: 0x09 :: u32_to_le seq

/-- JSON value, the target of serde_json parsing.  The syntactic
bytes-to-JSON parser of serde_json is an external library and is taken
as a parameter of the receive-loop step; the field-level deserializer
below is modelled from the serde derive attributes on the source
types.  Numbers carry their exact rational value. -/
inductive JVal where
  | null
  | bool (b : Bool)
  | num (q : ℚ)
  | str (s : String)
  | arr (xs : List JVal)
  | obj (fields : List (String × JVal))

/-- Field lookup in a JSON object (first occurrence). -/
def jField (fields : List (String × JVal)) (name : String) : Option JVal :=
  (fields.find? (fun p => p.1 == name)).map (fun p => p.2)

/-- serde: bool field (strict, no coercion). -/
def jBool : JVal → Option Bool
  | .bool b => some b
  | _ => none

/-- serde: f32 field from a JSON number (exact rational model). -/
def jF32 : JVal → Option ℚ
  | .num q => some q
  | _ => none

/-- serde: String field. -/
def jStr : JVal → Option String
  | .str s => some s
  | _ => none

/-- serde: u64 field — a JSON number with integral value in range. -/
def jU64 : JVal → Option Nat
  | .num q => if q.den = 1 ∧ 0 ≤ q.num ∧ q.num < 18446744073709551616 then some q.num.toNat else none
  | _ => none

/-- serde: u32 field — a JSON number with integral value in range. -/
def jU32 : JVal → Option Nat
  | .num q => if q.den = 1 ∧ 0 ≤ q.num ∧ q.num < 4294967296 then some q.num.toNat else none
  | _ => none

/-- serde: i32 field — a JSON number with integral value in range. -/
def jI32 : JVal → Option Int
  | .num q => if q.den = 1 ∧ -2147483648 ≤ q.num ∧ q.num < 2147483648 then some q.num else none
  | _ => none

/-- A bool field with serde(default): missing means false; a present
non-bool value (including null) is a deserialization error. -/
def jFieldBoolDefault (fields : List (String × JVal)) (name : String) : Option Bool :=
  match jField fields name with
  | none => some false
  | some v => jBool v

/-- An i32 field with serde(default): missing means 0. -/
def jFieldI32Default (fields : List (String × JVal)) (name : String) : Option Int :=
  match jField fields name with
  | none => some 0
  | some v => jI32 v

/-- An Option field with serde(default): missing or null means None,
otherwise the inner deserializer must succeed. -/
def jOptField {α : Type} (fields : List (String × JVal)) (name : String)
    (f : JVal → Option α) : Option (Option α) :=
  match jField fields name with
  | none => some none
  | some .null => some none
  | some v => (f v).map some

/-- struct Modifiers via serde: four bool fields, each serde(default). -/
def jModifiers : JVal → Option Modifiers
  | .obj fs => do
    let s ← jFieldBoolDefault fs "shift"
    let c ← jFieldBoolDefault fs "control"
    let a ← jFieldBoolDefault fs "alt"
    let m ← jFieldBoolDefault fs "command"
    pure ⟨s, c, a, m⟩
  | _ => none

/-- The derived serde deserializer for enum InputMessage: internally
tagged by the "type" field, with the field defaults declared in the
source (seq, modifiers, offset_x, offset_y, smooth). -/
def deserialize_input_message (v : JVal) : Option InputMessage :=
  match v with
  | .obj fs =>
    match jField fs "type" with
    | some (.str tag) =>
      if tag = "joystick" then do
        let x ← jField fs "x" >>= jF32
        let y ← jField fs "y" >>= jF32
        pure (.Joystick x y)
      else if tag = "button" then do
        let key ← jField fs "key" >>= jStr
        let pressed ← jField fs "pressed" >>= jBool
        let mods ← jOptField fs "modifiers" jModifiers
        let seq ← jOptField fs "seq" jU32
        pure (.Button key pressed mods seq)
      else if tag = "skill_start" then do
        let key ← jField fs "key" >>= jStr
        let ox ← jFieldI32Default fs "offset_x"
        let oy ← jFieldI32Default fs "offset_y"
        let mods ← jOptField fs "modifiers" jModifiers
        pure (.SkillStart key ox oy mods)
      else if tag = "skill_drag" then do
        let key ← jField fs "key" >>= jStr
        let dx ← jField fs "dx" >>= jF32
        let dy ← jField fs "dy" >>= jF32
        let dist ← jField fs "distance" >>= jF32
        let smooth ← jFieldBoolDefault fs "smooth"
        pure (.SkillDrag key dx dy dist smooth)
      else if tag = "skill_release" then do
        let key ← jField fs "key" >>= jStr
        let dx ← jField fs "dx" >>= jF32
        let dy ← jField fs "dy" >>= jF32
        let seq ← jOptField fs "seq" jU32
        pure (.SkillRelease key dx dy seq)
      else if tag = "skill_cancel" then do
        let key ← jField fs "key" >>= jStr
        let seq ← jOptField fs "seq" jU32
        pure (.SkillCancel key seq)
      else if tag = "ping" then do
        let ts ← jField fs "timestamp" >>= jU64
        pure (.Ping ts)
      else none
    | _ => none
  | _ => none

/-- Rust cast f32 as i32: truncation toward zero, saturating at the
i32 bounds. -/
def f32_as_i32 (q : ℚ) : Int :=
  max (-2147483648) (min 2147483647 (q.num.tdiv (q.den : Int)))

/-- All synthesized-input state owned by struct InputState in main.rs
(the enigo handle is replaced by the emitted intent trace). -/
structure InputState where
  pressed_keys : List String
  pressed_modifiers : Modifiers
  skill_center : Option (Int × Int)
  active_skill : Option String
  current_mouse_x : ℚ
  current_mouse_y : ℚ
  target_mouse_x : ℚ
  target_mouse_y : ℚ
deriving DecidableEq, Repr

/-- InputState::new(). -/
def InputState.initial : InputState :=
  { pressed_keys := []
    pressed_modifiers := Modifiers.mk0
    skill_center := none
    active_skill := none
    current_mouse_x := 0
    current_mouse_y := 0
    target_mouse_x := 0
    target_mouse_y := 0 }

/-- HashSet::insert on the held-identifier set (idempotent). -/
def hs_insert (s : List String) (k : String) : List String :=
  if k ∈ s then s else k :: s

/-- HashSet::remove on the held-identifier set. -/
def hs_remove (s : List String) (k : String) : List String :=
  s.filter (fun x => x != k)

/-- InputState::update_modifiers: presses or releases exactly the
modifier flags of m whose recorded state differs from the goal. -/
def update_modifiers (st : InputState) (m : Modifiers) (press : Bool) : InputState × List Intent :=
  let dir := if press then Direction.Press else Direction.Release
  let pm := st.pressed_modifiers
  let (pm, l1) :=
    if m.shift ∧ press ≠ pm.shift then ({pm with shift := press}, [Intent.key .Shift dir])
    else (pm, [])
  let (pm, l2) :=
    if m.control ∧ press ≠ pm.control then ({pm with control := press}, [Intent.key .Control dir])
    else (pm, [])
  let (pm, l3) :=
    if m.alt ∧ press ≠ pm.alt then ({pm with alt := press}, [Intent.key .Alt dir])
    else (pm, [])
  let (pm, l4) :=
    if m.command ∧ press ≠ pm.command then ({pm with command := press}, [Intent.key .Meta dir])
    else (pm, [])
  ({st with pressed_modifiers := pm}, l1 ++ l2 ++ l3 ++ l4)

/-- InputState::release_all_modifiers. -/
def release_all_modifiers (st : InputState) : InputState × List Intent :=
  let pm := st.pressed_modifiers
  let (pm, l1) :=
    if pm.shift then ({pm with shift := false}, [Intent.key .Shift .Release]) else (pm, [])
  let (pm, l2) :=
    if pm.control then ({pm with control := false}, [Intent.key .Control .Release]) else (pm, [])
  let (pm, l3) :=
    if pm.alt then ({pm with alt := false}, [Intent.key .Alt .Release]) else (pm, [])
  let (pm, l4) :=
    if pm.command then ({pm with command := false}, [Intent.key .Meta .Release]) else (pm, [])
  ({st with pressed_modifiers := pm}, l1 ++ l2 ++ l3 ++ l4)

/-- InputState::update_key: presses only on the 0 to 1 transition and
releases only on the 1 to 0 transition of held-set membership. -/
def update_key (st : InputState) (key : Char) (should_press : Bool) : InputState × List Intent :=
  let key_str := String.mk [key]
  let is_pressed := key_str ∈ st.pressed_keys
  if should_press ∧ ¬is_pressed then
    ({st with pressed_keys := hs_insert st.pressed_keys key_str}, [.key (.Unicode key) .Press])
  else if ¬should_press ∧ is_pressed then
    ({st with pressed_keys := hs_remove st.pressed_keys key_str}, [.key (.Unicode key) .Release])
  else (st, [])

/-- InputState::handle_joystick: deadzone filter then the four
directional update_key calls. -/
def handle_joystick (st : InputState) (x y : ℚ) : InputState × List Intent :=
  let x := if |x| < DEADZONE then 0 else x
  let y := if |y| < DEADZONE then 0 else y
  let (st, i1) := update_key st 'a' (decide (x < -DEADZONE))
  let (st, i2) := update_key st 'd' (decide (x > DEADZONE))
  let (st, i3) := update_key st 'w' (decide (y < -DEADZONE))
  let (st, i4) := update_key st 's' (decide (y > DEADZONE))
  (st, i1 ++ i2 ++ i3 ++ i4)

/-- InputState::handle_button. -/
def handle_button (st : InputState) (key : String) (pressed : Bool)
    (modifiers : Option Modifiers) : InputState × List Intent :=
  let key_lower := str_to_lower key
  if pressed then
    let (st, mi) :=
      match modifiers with
      | some mods =>
        if ¬mods.is_empty then
          let (s, i) := update_modifiers st mods true
          (s, i ++ [Intent.sleep 10])
        else (st, [])
      | none => (st, [])
    match parse_key key_lower with
    | some (.Keyboard k) =>
      ({st with pressed_keys := hs_insert st.pressed_keys key_lower}, mi ++ [.key k .Press])
    | some (.Mouse a) =>
      match a with
      | .ScrollUp => (st, mi ++ [.scroll 2])
      | .ScrollDown => (st, mi ++ [.scroll (-2)])
      | _ =>
        match mouse_action_to_button a with
        | some btn =>
          ({st with pressed_keys := hs_insert st.pressed_keys key_lower}, mi ++ [.button btn .Press])
        | none => (st, mi)
    | none => (st, mi)
  else
    let (st, ri) :=
      match parse_key key_lower with
      | some (.Keyboard k) =>
        ({st with pressed_keys := hs_remove st.pressed_keys key_lower}, [Intent.key k .Release])
      | some (.Mouse a) =>
        if a ≠ .ScrollUp ∧ a ≠ .ScrollDown then
          match mouse_action_to_button a with
          | some btn =>
            ({st with pressed_keys := hs_remove st.pressed_keys key_lower}, [Intent.button btn .Release])
          | none => (st, [])
        else (st, [])
      | none => (st, [])
    match modifiers with
    | some mods =>
      if ¬mods.is_empty then
        let (s, i) := update_modifiers st mods false
        (s, ri ++ [Intent.sleep 10] ++ i)
      else (st, ri)
    | none => (st, ri)

/-- InputState::handle_skill_start.  The display-topology query
get_current_display_center is environment input and is passed in as
display_center. -/
def handle_skill_start (display_center : Int × Int) (st : InputState) (key : String)
    (offset_x offset_y : Int) (modifiers : Option Modifiers) : InputState × List Intent :=
  let center := (display_center.1 + offset_x, display_center.2 + offset_y)
  let st := {st with skill_center := some center}
  let (st, mi) :=
    match modifiers with
    | some mods => update_modifiers st mods true
    | none => (st, [])
  let ci : List Intent :=
    match parse_key key with
    | some (.Keyboard k) => [.key k .Click]
    | some (.Mouse a) =>
      match a with
      | .ScrollUp => [.scroll 2]
      | .ScrollDown => [.scroll (-2)]
      | _ =>
        match mouse_action_to_button a with
        | some btn => [.button btn .Click]
        | none => []
    | none => []
  let (st, mr) :=
    match modifiers with
    | some mods => update_modifiers st mods false
    | none => (st, [])
  let st :=
    {st with current_mouse_x := (center.1 : ℚ), current_mouse_y := (center.2 : ℚ),
             target_mouse_x := (center.1 : ℚ), target_mouse_y := (center.2 : ℚ),
             active_skill := some key}
  (st, mi ++ ci ++ mr ++ [.moveMouse center.1 center.2])

/-- InputState::handle_skill_drag: no-op when no cast is active;
otherwise exponential smoothing toward the raw target, or a direct
jump. -/
def handle_skill_drag (st : InputState) (_key : String) (dx dy : ℚ) (_distance : ℚ)
    (smooth : Bool) : InputState × List Intent :=
  match st.skill_center with
  | some center =>
    let target_x : ℚ := (center.1 : ℚ) + dx * (SKILL_MOUSE_RADIUS : ℚ)
    let target_y : ℚ := (center.2 : ℚ) + dy * (SKILL_MOUSE_RADIUS : ℚ)
    if smooth then
      let cx := st.current_mouse_x + (target_x - st.current_mouse_x) * SMOOTH_FACTOR
      let cy := st.current_mouse_y + (target_y - st.current_mouse_y) * SMOOTH_FACTOR
      ({st with target_mouse_x := target_x, target_mouse_y := target_y,
                current_mouse_x := cx, current_mouse_y := cy},
       [.moveMouse (f32_as_i32 cx) (f32_as_i32 cy)])
    else (st, [.moveMouse (f32_as_i32 target_x) (f32_as_i32 target_y)])
  | none => (st, [])

/-- InputState::handle_skill_release: move to the final position, the
timed left-button confirm click, return to center, clear the cast
state (the state is cleared even when no cast was active). -/
def handle_skill_release (st : InputState) (_key : String) (dx dy : ℚ) : InputState × List Intent :=
  match st.skill_center with
  | some center =>
    let mouse_x := center.1 + f32_as_i32 (dx * (SKILL_MOUSE_RADIUS : ℚ))
    let mouse_y := center.2 + f32_as_i32 (dy * (SKILL_MOUSE_RADIUS : ℚ))
    ({st with skill_center := none, active_skill := none},
     [.moveMouse mouse_x mouse_y, .sleep SKILL_CLICK_DELAY_MS,
      .button .Left .Press, .sleep SKILL_CLICK_HOLD_MS, .button .Left .Release,
      .sleep SKILL_CLICK_DELAY_MS, .moveMouse center.1 center.2])
  | none => ({st with skill_center := none, active_skill := none}, [])

/-- InputState::handle_skill_cancel. -/
def handle_skill_cancel (st : InputState) (_key : String) : InputState × List Intent :=
  match st.skill_center with
  | some center =>
    ({st with skill_center := none, active_skill := none}, [.moveMouse center.1 center.2])
  | none => ({st with skill_center := none, active_skill := none}, [])

/-- Release intents for one held identifier, from the loop body of
InputState::release_all. -/
def release_intent (k : String) : List Intent :=
  match parse_key k with
  | some (.Keyboard ek) => [.key ek .Release]
  | some (.Mouse a) =>
    match mouse_action_to_button a with
    | some btn => [.button btn .Release]
    | none => []
  | none => []

/-- InputState::release_all. -/
def release_all (st : InputState) : InputState × List Intent :=
  let ki := st.pressed_keys.foldr (fun k acc => release_intent k ++ acc) []
  let st := {st with pressed_keys := []}
  let (st, mi) := release_all_modifiers st
  ({st with skill_center := none, active_skill := none}, ki ++ mi)

/-- A datagram sent back to the peer: raw bytes for the binary family,
a JSON value for the text family (serde_json serialization of the
reply structs). -/
inductive Reply where
  | raw (bytes : List Nat)
  | json (v : JVal)

/-- The mutable state of the receive loop in main(): the input state
machine, the active session address, the heartbeat instant (seconds),
the diagnostic mode flag and the dedup window (front of the list is
the oldest entry of the VecDeque). -/
structure ServerState where
  input : InputState
  last_client : Option Nat
  last_heartbeat : Nat
  client_extreme_mode : Bool
  processed_seqs : List Nat

/-- The sequence-admission block of main() (send-ACK aside): a seq
already in the window is a duplicate (window unchanged, message must
not be reapplied); otherwise it is fresh and is pushed at the back,
evicting the front when the capacity MAX_PROCESSED_SEQS is exceeded.
Returns (fresh?, new window). -/
def seq_dedup (processed : List Nat) (seq : Nat) : Bool × List Nat :=
  if seq ∈ processed then (false, processed)
  else
    let p := processed ++ [seq]
    (true, if MAX_PROCESSED_SEQS < p.length then p.tail else p)

/-- The JSON serialization of PongMessage. -/
def pong_json (timestamp : Nat) : JVal :=
  .obj [("type", .str "pong"), ("timestamp", .num (timestamp : ℚ))]

/-- The JSON serialization of AckMessage. -/
def ack_json (seq : Nat) : JVal :=
  .obj [("type", .str "ack"), ("seq", .num (seq : ℚ))]

/-- Pair a handler result with an empty reply list (all handlers except
Ping send nothing back). -/
def no_reply (r : InputState × List Intent) : InputState × List Intent × List Reply :=
  (r.1, r.2, [])

/-- The message dispatch of main(): one handler call per variant, and
the Pong reply (in the inbound wire family) for Ping.  Returns the new
input state, the emitted intents and the replies. -/
def apply_message (is_binary : Bool) (display_center : Int × Int) (inp : InputState) :
    Option InputMessage → InputState × List Intent × List Reply
  | none => (inp, [], [])
  | some m =>
    match m with
    | .Joystick x y => no_reply (handle_joystick inp x y)
    | .Button k p mods _ => no_reply (handle_button inp k p mods)
    | .SkillStart k ox oy mods => no_reply (handle_skill_start display_center inp k ox oy mods)
    | .SkillDrag k dx dy dist sm => no_reply (handle_skill_drag inp k dx dy dist sm)
    | .SkillRelease k dx dy _ => no_reply (handle_skill_release inp k dx dy)
    | .SkillCancel k _ => no_reply (handle_skill_cancel inp k)
    | .Ping ts =>
      (inp, [], [if is_binary then .raw (build_binary_pong ts) else .json (pong_json ts)])

/-- One iteration of the receive loop of main() for a successfully
received datagram: session replacement and window clearing on an
address change, unconditional heartbeat refresh, first-byte wire-family
detection, decoding (json_parse stands for the serde_json syntactic
parser), the unconditional ACK plus dedup gate for sequence-numbered
messages, and dispatch.  Returns the new state, replies, intents. -/
def server_step (json_parse : List Nat → Option JVal) (display_center : Int × Int)
    (now : Nat) (st : ServerState) (src : Nat) (buf : List Nat) :
    ServerState × List Reply × List Intent :=
  let st :=
    if st.last_client ≠ some src then
      {st with last_client := some src, client_extreme_mode := false, processed_seqs := []}
    else st
  let st := {st with last_heartbeat := now}
  let is_binary : Bool :=
    match buf with
    | b :: _ => b == MAGIC
    | [] => false
  let parsed : Option InputMessage × Option Nat :=
    if is_binary then
      match parse_bin buf with
      | some (m, s) => (some m, s)
      | none => (none, none)
    else
      match (json_parse buf).bind deserialize_input_message with
      | some m =>
        let s :=
          match m with
          | .Button _ _ _ q => q
          | .SkillRelease _ _ _ q => q
          | .SkillCancel _ q => q
          | _ => none
        (some m, s)
      | none => (none, none)
  let st := {st with client_extreme_mode := is_binary}
  match parsed.2 with
  | some seq =>
    let ack := if is_binary then Reply.raw (build_binary_ack seq) else Reply.json (ack_json seq)
    let (fresh, w) := seq_dedup st.processed_seqs seq
    if fresh then
      let st := {st with processed_seqs := w}
      let (inp, ints, reps) := apply_message is_binary display_center st.input parsed.1
      ({st with input := inp}, ack :: reps, ints)
    else
      (st, [ack], [])
  | none =>
    let (inp, ints, reps) := apply_message is_binary display_center st.input parsed.1
    ({st with input := inp}, reps, ints)

/-- The timeout arm of the receive loop (WouldBlock / TimedOut): when a
session exists and more than HEARTBEAT_TIMEOUT_SECS have elapsed since
the last datagram, release all input and clear the session. -/
def server_tick (now : Nat) (st : ServerState) : ServerState × List Intent :=
  if st.last_client.isSome ∧ HEARTBEAT_TIMEOUT_SECS < now - st.last_heartbeat then
    let (inp, ints) := release_all st.input
    ({st with input := inp, last_client := none}, ints)
  else (st, [])

/-- The observable contract of one admission of sequence number s
carried by the datagram buf, in the wire family whose ack reply and
mode flag are given: the ack is sent as the only reply of the
iteration; a duplicate admission (s already in the window) leaves the
loop state unchanged apart from the heartbeat instant and the mode
flag — in particular the dedup window and the whole input state are
untouched and no intent is emitted, so the message is not reapplied;
a fresh admission records s in the dedup window. -/
def ack_and_dedup (jp : List Nat → Option JVal) (dc : Int × Int) (now : Nat)
    (st : ServerState) (src : Nat) (buf : List Nat) (s : Nat) (ack : Reply)
    (mode : Bool) : Prop :=
  (server_step jp dc now st src buf).2.1 = [ack] ∧
  (s ∈ st.processed_seqs →
    (server_step jp dc now st src buf).1 =
      {st with last_heartbeat := now, client_extreme_mode := mode} ∧
    (server_step jp dc now st src buf).2.2 = []) ∧
  (s ∉ st.processed_seqs → s ∈ (server_step jp dc now st src buf).1.processed_seqs)

/-- Fixture JSON parse table for witnesses: three one-byte text
datagrams mapping to the three reliable text records, each carrying
sequence number 7. -/
def sample_json_table : List Nat → Option JVal := fun b =>
  if b = [1] then
    some (JVal.obj [("type", JVal.str "button"), ("key", JVal.str "q"),
      ("pressed", JVal.bool true), ("seq", JVal.num ((7 : Nat) : ℚ))])
  else if b = [2] then
    some (JVal.obj [("type", JVal.str "skill_release"), ("key", JVal.str "q"),
      ("dx", JVal.num 0), ("dy", JVal.num 0), ("seq", JVal.num ((7 : Nat) : ℚ))])
  else if b = [3] then
    some (JVal.obj [("type", JVal.str "skill_cancel"), ("key", JVal.str "q"),
      ("seq", JVal.num ((7 : Nat) : ℚ))])
  else none

/-! ### Helper lemmas -/

theorem get?_eq_getD {l : List Nat} {i : Nat} (h : i < l.length) :
    l.get? i = some (l.getD i 0) := by
  induction l generalizing i with
  | nil => simp at h
  | cons a t ih =>
    cases i with
    | zero => rfl
    | succ n => simpa using ih (by simpa using h)

theorem idx_eq (buf : List Nat) (i : Nat) (h : i < buf.length) :
    idx buf i = Except.ok (buf.getD i 0) := by
  unfold idx
  rw [get?_eq_getD h]

theorem slice_eq (buf : List Nat) (a b : Nat) (h1 : a ≤ b) (h2 : b ≤ buf.length) :
    slice buf a b = Except.ok ((buf.drop a).take (b - a)) := by
  unfold slice
  rw [if_pos ⟨h1, h2⟩]

theorem except_bind_ok {α β : Type} (a : α) (f : α → Except Unit β) :
    (Except.ok a >>= f) = f a := rfl

theorem except_pure_eq {α : Type} (a : α) : (pure a : Except Unit α) = Except.ok a := rfl

theorem DEADZONE_div : DEADZONE = 13421773 / 67108864 := by
  rw [DEADZONE, Rat.mkRat_eq_div]
  norm_num

theorem SMOOTH_FACTOR_div : SMOOTH_FACTOR = 13421773 / 33554432 := by
  rw [SMOOTH_FACTOR, Rat.mkRat_eq_div]
  norm_num

/-! ### Claims -/

/-- C5: binary message decoding never panics: for every byte buffer,
every index and slice the decoder performs is covered by a preceding
length check, so the Except-embedded decoder always returns ok (and
buffers failing a check yield ok none, the silently dropped case). -/
theorem c5_decode_no_panic (buf : List Nat) :
    ∃ r, parse_binary_message buf = Except.ok r := by
  unfold parse_binary_message
  by_cases h2 : buf.length < 2
  · rw [if_pos h2]; exact ⟨_, rfl⟩
  rw [if_neg h2]
  rw [idx_eq buf 0 (by omega)]
  simp only [except_bind_ok]
  by_cases hm : buf.getD 0 0 ≠ MAGIC
  · rw [if_pos hm]; exact ⟨_, rfl⟩
  rw [if_neg hm]
  rw [idx_eq buf 1 (by omega)]
  simp only [except_bind_ok]
  by_cases h01 : buf.getD 1 0 = 0x01 ∧ 10 ≤ buf.length
  · rw [if_pos h01]
    rw [idx_eq buf 2 (by omega), idx_eq buf 3 (by omega), idx_eq buf 4 (by omega),
        idx_eq buf 5 (by omega), idx_eq buf 6 (by omega), idx_eq buf 7 (by omega),
        idx_eq buf 8 (by omega), idx_eq buf 9 (by omega)]
    simp only [except_bind_ok]
    exact ⟨_, rfl⟩
  rw [if_neg h01]
  by_cases h02 : buf.getD 1 0 = 0x02 ∧ 4 ≤ buf.length
  · rw [if_pos h02]
    rw [idx_eq buf 2 (by omega), idx_eq buf 3 (by omega)]
    simp only [except_bind_ok]
    by_cases hb : buf.length < 4 + buf.getD 2 0 + 2
    · rw [if_pos hb]
      exact ⟨_, rfl⟩
    rw [if_neg hb]
    rw [slice_eq buf 3 (3 + buf.getD 2 0) (by omega) (by omega),
        idx_eq buf (3 + buf.getD 2 0) (by omega), idx_eq buf (4 + buf.getD 2 0) (by omega)]
    simp only [except_bind_ok]
    exact ⟨_, rfl⟩
  rw [if_neg h02]
  by_cases h12 : buf.getD 1 0 = 0x12 ∧ 9 ≤ buf.length
  · rw [if_pos h12]
    rw [idx_eq buf 2 (by omega), idx_eq buf 3 (by omega), idx_eq buf 4 (by omega),
        idx_eq buf 5 (by omega), idx_eq buf 6 (by omega)]
    simp only [except_bind_ok]
    by_cases hb : buf.length < 9 + buf.getD 6 0
    · rw [if_pos hb]
      exact ⟨_, rfl⟩
    rw [if_neg hb]
    rw [slice_eq buf 7 (7 + buf.getD 6 0) (by omega) (by omega),
        idx_eq buf (7 + buf.getD 6 0) (by omega), idx_eq buf (8 + buf.getD 6 0) (by omega)]
    simp only [except_bind_ok]
    exact ⟨_, rfl⟩
  rw [if_neg h12]
  by_cases h03 : buf.getD 1 0 = 0x03 ∧ 3 ≤ buf.length
  · rw [if_pos h03]
    rw [idx_eq buf 2 (by omega)]
    simp only [except_bind_ok]
    by_cases hb : buf.length < 3 + buf.getD 2 0 + 1
    · rw [if_pos hb]
      exact ⟨_, rfl⟩
    rw [if_neg hb]
    rw [slice_eq buf 3 (3 + buf.getD 2 0) (by omega) (by omega),
        idx_eq buf (3 + buf.getD 2 0) (by omega)]
    simp only [except_bind_ok]
    exact ⟨_, rfl⟩
  rw [if_neg h03]
  by_cases h04 : buf.getD 1 0 = 0x04 ∧ 15 ≤ buf.length
  · rw [if_pos h04]
    rw [idx_eq buf 2 (by omega), idx_eq buf 3 (by omega), idx_eq buf 4 (by omega),
        idx_eq buf 5 (by omega), idx_eq buf 6 (by omega), idx_eq buf 7 (by omega),
        idx_eq buf 8 (by omega), idx_eq buf 9 (by omega), idx_eq buf 10 (by omega),
        idx_eq buf 11 (by omega), idx_eq buf 12 (by omega), idx_eq buf 13 (by omega),
        idx_eq buf 14 (by omega)]
    simp only [except_bind_ok]
    exact ⟨_, rfl⟩
  rw [if_neg h04]
  by_cases h05 : buf.getD 1 0 = 0x05 ∧ 11 ≤ buf.length
  · rw [if_pos h05]
    rw [idx_eq buf 2 (by omega), idx_eq buf 3 (by omega), idx_eq buf 4 (by omega),
        idx_eq buf 5 (by omega), idx_eq buf 6 (by omega), idx_eq buf 7 (by omega),
        idx_eq buf 8 (by omega), idx_eq buf 9 (by omega), idx_eq buf 10 (by omega)]
    simp only [except_bind_ok]
    exact ⟨_, rfl⟩
  rw [if_neg h05]
  by_cases h15 : buf.getD 1 0 = 0x15 ∧ 15 ≤ buf.length
  · rw [if_pos h15]
    rw [idx_eq buf 2 (by omega), idx_eq buf 3 (by omega), idx_eq buf 4 (by omega),
        idx_eq buf 5 (by omega), idx_eq buf 6 (by omega), idx_eq buf 7 (by omega),
        idx_eq buf 8 (by omega), idx_eq buf 9 (by omega), idx_eq buf 10 (by omega),
        idx_eq buf 11 (by omega), idx_eq buf 12 (by omega), idx_eq buf 13 (by omega),
        idx_eq buf 14 (by omega)]
    simp only [except_bind_ok]
    exact ⟨_, rfl⟩
  rw [if_neg h15]
  by_cases h06 : buf.getD 1 0 = 0x06 ∧ 3 ≤ buf.length
  · rw [if_pos h06]
    rw [idx_eq buf 2 (by omega)]
    simp only [except_bind_ok]
    exact ⟨_, rfl⟩
  rw [if_neg h06]
  by_cases h16 : buf.getD 1 0 = 0x16 ∧ 7 ≤ buf.length
  · rw [if_pos h16]
    rw [idx_eq buf 2 (by omega), idx_eq buf 3 (by omega), idx_eq buf 4 (by omega),
        idx_eq buf 5 (by omega), idx_eq buf 6 (by omega)]
    simp only [except_bind_ok]
    exact ⟨_, rfl⟩
  rw [if_neg h16]
  by_cases h07 : buf.getD 1 0 = 0x07 ∧ 10 ≤ buf.length
  · rw [if_pos h07]
    rw [idx_eq buf 2 (by omega), idx_eq buf 3 (by omega), idx_eq buf 4 (by omega),
        idx_eq buf 5 (by omega), idx_eq buf 6 (by omega), idx_eq buf 7 (by omega),
        idx_eq buf 8 (by omega), idx_eq buf 9 (by omega)]
    simp only [except_bind_ok]
    exact ⟨_, rfl⟩
  rw [if_neg h07]
  exact ⟨_, rfl⟩

/-- C1 counterexample: the buffer AB 02 01 71 01 00 has length 6, which
is exactly enough for the newer Button layout with key_len 1 (magic,
type, key_len byte, one key byte 0x71 = q, pressed byte, modifiers
byte), yet the decoder falls back to the legacy single-byte-key layout
(key becomes the character U+0001, the key_len byte) because its guard
demands one byte more than the newer layout occupies. -/
theorem c1_counterexample :
    parse_bin [171, 2, 1, 113, 1, 0] =
      some (InputMessage.Button (char_string 1) true none none, none) ∧
    char_string 1 ≠ "q" := by
  constructor
  · rfl
  · decide

/-- C1 amended: for a binary Button datagram (magic, type 0x02, at
least 4 bytes), the decoder falls back to the legacy layout exactly
when the buffer is shorter than key_len + 6 bytes — one byte more than
the key_len + 5 bytes the newer layout occupies — and decodes the newer
layout otherwise.  In particular a buffer of exactly the newer layout
length still falls back. -/
theorem c1_amended (kl p : Nat) (rest : List Nat) :
    parse_bin (171 :: 2 :: kl :: p :: rest) =
      (if rest.length < kl + 2 then
        some (InputMessage.Button (char_string kl) (p != 0) none none, none)
      else
        let body := p :: rest
        let mods := Modifiers.from_byte (body.getD (kl + 1) 0)
        some (InputMessage.Button (utf8_lossy (body.take kl)) (body.getD kl 0 != 0)
          (if mods.is_empty then none else some mods) none, none)) := by
  have hgd : ∀ n, (171 :: 2 :: kl :: p :: rest).getD (3 + n) 0 = (p :: rest).getD n 0 := by
    intro n
    simp only [show 3 + n = n + 1 + 1 + 1 from by omega, List.getD_cons_succ]
  unfold parse_bin parse_binary_message
  rw [if_neg (by simp only [List.length_cons]; omega)]
  rw [show idx (171 :: 2 :: kl :: p :: rest) 0 = Except.ok 171 from rfl]
  simp only [except_bind_ok]
  rw [if_neg (by decide)]
  rw [show idx (171 :: 2 :: kl :: p :: rest) 1 = Except.ok 2 from rfl]
  simp only [except_bind_ok]
  rw [if_neg (show ¬((2 : Nat) = 0x01 ∧ 10 ≤ (171 :: 2 :: kl :: p :: rest).length) from by simp)]
  rw [if_pos (show True ∧ 4 ≤ (171 :: 2 :: kl :: p :: rest).length from
    ⟨trivial, by simp only [List.length_cons]; omega⟩)]
  rw [show idx (171 :: 2 :: kl :: p :: rest) 2 = Except.ok kl from rfl]
  simp only [except_bind_ok]
  by_cases hb : rest.length < kl + 2
  · rw [if_pos (show (171 :: 2 :: kl :: p :: rest).length < 4 + kl + 2 by
      simp only [List.length_cons]; omega)]
    rw [show idx (171 :: 2 :: kl :: p :: rest) 3 = Except.ok p from rfl]
    simp only [except_bind_ok]
    rw [if_pos hb]
    rfl
  · rw [if_neg (show ¬(171 :: 2 :: kl :: p :: rest).length < 4 + kl + 2 by
      simp only [List.length_cons]; omega)]
    rw [slice_eq _ 3 (3 + kl) (by omega) (by simp only [List.length_cons]; omega)]
    simp only [except_bind_ok]
    rw [idx_eq _ (3 + kl) (by simp only [List.length_cons]; omega),
        idx_eq _ (4 + kl) (by simp only [List.length_cons]; omega)]
    simp only [except_bind_ok]
    rw [if_neg hb]
    have hdrop : (171 :: 2 :: kl :: p :: rest).drop 3 = p :: rest := rfl
    have htake : 3 + kl - 3 = kl := by omega
    have h4 : (4 : Nat) + kl = 3 + (kl + 1) := by omega
    rw [hdrop, htake, hgd kl, h4, hgd (kl + 1)]
    rfl

/-- C9: the smooth flag defaults differently in the two wire families.
A 15-byte binary SkillDrag datagram (no 16th smooth byte) decodes with
smooth = true, while a JSON skill_drag record that omits the smooth
field deserializes with smooth = false (the serde bool default). -/
theorem c9_smooth_defaults (k d0 d1 d2 d3 e0 e1 e2 e3 m0 m1 m2 m3 : Nat)
    (key : String) (dx dy dist : ℚ) :
    parse_bin [171, 4, k, d0, d1, d2, d3, e0, e1, e2, e3, m0, m1, m2, m3] =
      some (InputMessage.SkillDrag (char_string k) (f32_from_le d0 d1 d2 d3)
        (f32_from_le e0 e1 e2 e3) (f32_from_le m0 m1 m2 m3) true, none) ∧
    deserialize_input_message (JVal.obj [("type", .str "skill_drag"), ("key", .str key),
        ("dx", .num dx), ("dy", .num dy), ("distance", .num dist)]) =
      some (InputMessage.SkillDrag key dx dy dist false) :=
  ⟨rfl, rfl⟩

/-- C2 counterexample: from the initial state, a Button press of "q"
immediately followed by a second press of "q" (which is then already in
the held-input set) emits a press intent for each of the two messages —
two press intents, not exactly one.  The subsequent release emits one
release intent. -/
theorem c2_counterexample :
    (handle_button InputState.initial "q" true none).2 =
      [Intent.key (Key.Unicode 'q') .Press] ∧
    "q" ∈ (handle_button InputState.initial "q" true none).1.pressed_keys ∧
    (handle_button (handle_button InputState.initial "q" true none).1 "q" true none).2 =
      [Intent.key (Key.Unicode 'q') .Press] ∧
    (handle_button (handle_button (handle_button InputState.initial "q" true none).1
        "q" true none).1 "q" false none).2 =
      [Intent.key (Key.Unicode 'q') .Release] := by
  refine ⟨rfl, ?_, rfl, rfl⟩
  decide

/-- A held identifier is a member of the set after HashSet::insert. -/
theorem hs_insert_mem (s : List String) (k : String) : k ∈ hs_insert s k := by
  unfold hs_insert
  by_cases h : k ∈ s
  · rwa [if_pos h]
  · rw [if_neg h]
    exact List.mem_cons_self k s

/-- C2 amended: handle_button does not debounce through the held-input
set (that debounce exists only in update_key, the joystick path): every
Button press message whose identifier resolves to a keyboard key emits
exactly one press intent, even when the identifier is already held, and
every release message emits exactly one release intent.  Two
consecutive presses therefore emit two press intents in total. -/
theorem c2_amended (st : InputState) (key : String) (ek : Key)
    (h : parse_key (str_to_lower key) = some (ParsedInput.Keyboard ek)) :
    (handle_button st key true none).2 = [Intent.key ek .Press] ∧
    (handle_button st key false none).2 = [Intent.key ek .Release] ∧
    str_to_lower key ∈ (handle_button st key true none).1.pressed_keys := by
  unfold handle_button
  simp only [h, if_true, eq_self_iff_true]
  exact ⟨rfl, rfl, hs_insert_mem _ _⟩

/-- Witness for C2 amended at key "q" in a state where "q" is already
held: the press message still emits a press intent. -/
theorem c2_amended_witness :
    (handle_button ⟨["q"], Modifiers.mk0, none, none, 0, 0, 0, 0⟩ "q" true none).2 =
      [Intent.key (Key.Unicode 'q') .Press] ∧
    (handle_button ⟨["q"], Modifiers.mk0, none, none, 0, 0, 0, 0⟩ "q" false none).2 =
      [Intent.key (Key.Unicode 'q') .Release] ∧
    str_to_lower "q" ∈
      (handle_button ⟨["q"], Modifiers.mk0, none, none, 0, 0, 0, 0⟩ "q" true none).1.pressed_keys :=
  c2_amended ⟨["q"], Modifiers.mk0, none, none, 0, 0, 0, 0⟩ "q" (Key.Unicode 'q') rfl

/-- C6 counterexample: a Joystick message with x = y = 0 (both axes
inside the deadzone) processed while the directional key a is held
(from a preceding Joystick with x = -1) emits a release intent — a
directional key transition, contradicting the claim that no press and
no release intent is emitted for any deadzone input. -/
theorem c6_counterexample :
    (handle_joystick (handle_joystick InputState.initial (-1) 0).1 0 0).2 =
      [Intent.key (Key.Unicode 'a') .Release] ∧
    |(0 : ℚ)| < 1/5 := by
  constructor
  · rfl
  · norm_num

theorem update_key_skip (st : InputState) (key : Char)
    (h : String.mk [key] ∉ st.pressed_keys) :
    update_key st key false = (st, []) := by
  unfold update_key
  rw [if_neg (by simp)]
  rw [if_neg (by simp [h])]

/-- C6 amended: a Joystick message with both axes inside the deadzone
causes no directional key transition provided no directional identifier
is currently held; when one is held, the same message releases it (the
1 to 0 transition of update_key), which is the only intent such a
message can emit. -/
theorem c6_amended (st : InputState) (x y : ℚ)
    (hx : |x| < 1/5) (hy : |y| < 1/5)
    (ha : "a" ∉ st.pressed_keys) (hd : "d" ∉ st.pressed_keys)
    (hw : "w" ∉ st.pressed_keys) (hs : "s" ∉ st.pressed_keys) :
    handle_joystick st x y = (st, []) := by
  have hdz : (1 : ℚ)/5 < DEADZONE := by rw [DEADZONE_div]; norm_num
  have hx2 : |x| < DEADZONE := lt_trans hx hdz
  have hy2 : |y| < DEADZONE := lt_trans hy hdz
  have d1 : (decide ((0 : ℚ) < -DEADZONE)) = false := by rfl
  have d2 : (decide ((0 : ℚ) > DEADZONE)) = false := by rfl
  have ua := update_key_skip st 'a' (by rw [show String.mk ['a'] = "a" from rfl]; exact ha)
  have ud := update_key_skip st 'd' (by rw [show String.mk ['d'] = "d" from rfl]; exact hd)
  have uw := update_key_skip st 'w' (by rw [show String.mk ['w'] = "w" from rfl]; exact hw)
  have us := update_key_skip st 's' (by rw [show String.mk ['s'] = "s" from rfl]; exact hs)
  unfold handle_joystick
  rw [if_pos hx2, if_pos hy2]
  simp only [d1, d2, ua, ud, uw, us]
  rfl

/-- Witness for C6 amended: a small in-deadzone input from the initial
state produces no intent and leaves the state unchanged. -/
theorem c6_amended_witness :
    handle_joystick InputState.initial (1/10) 0 = (InputState.initial, []) :=
  c6_amended InputState.initial (1/10) 0 (by rw [abs_of_pos (by norm_num)]; norm_num)
    (by rw [abs_of_nonneg le_rfl]; norm_num)
    (by decide) (by decide) (by decide) (by decide)

/-- C7: from an Idle skill state, SkillStart q with offset (0,0)
followed by SkillRelease q with direction (1, 0) clicks the skill key
and moves the pointer to the display center c, then moves it to
c + (800, 0), performs a press-then-release of the left mouse button
(with the 50 ms settle delays and the 100 ms hold), moves the pointer
back to c, and leaves the skill-cast state Idle (center and active key
cleared). -/
theorem c7_skill_cast (st : InputState) (c : Int × Int) (_hidle : st.skill_center = none) :
    (handle_skill_start c st "q" 0 0 none).2 =
      [Intent.key (Key.Unicode 'q') .Click, Intent.moveMouse c.1 c.2] ∧
    (handle_skill_release (handle_skill_start c st "q" 0 0 none).1 "q" 1 0).2 =
      [Intent.moveMouse (c.1 + 800) c.2, Intent.sleep 50,
       Intent.button .Left .Press, Intent.sleep 100, Intent.button .Left .Release,
       Intent.sleep 50, Intent.moveMouse c.1 c.2] ∧
    (handle_skill_release (handle_skill_start c st "q" 0 0 none).1 "q" 1 0).1.skill_center =
      none ∧
    (handle_skill_release (handle_skill_start c st "q" 0 0 none).1 "q" 1 0).1.active_skill =
      none := by
  have hq : parse_key "q" = some (ParsedInput.Keyboard (Key.Unicode 'q')) := rfl
  have hcast : ((SKILL_MOUSE_RADIUS : Int) : ℚ) = 800 := by
    rw [SKILL_MOUSE_RADIUS]; norm_num
  have h800 : f32_as_i32 ((1 : ℚ) * (SKILL_MOUSE_RADIUS : ℚ)) = 800 := by
    rw [hcast, one_mul]; rfl
  have h0 : f32_as_i32 ((0 : ℚ) * (SKILL_MOUSE_RADIUS : ℚ)) = 0 := by
    rw [hcast, zero_mul]; rfl
  unfold handle_skill_start handle_skill_release
  simp only [hq, h800, h0, add_zero]
  refine ⟨?_, ?_, ?_, ?_⟩ <;> first | rfl | trivial

/-- Witness for C7 at the initial state with display center (100, 200). -/
theorem c7_skill_cast_witness :
    (handle_skill_start (100, 200) InputState.initial "q" 0 0 none).2 =
      [Intent.key (Key.Unicode 'q') .Click, Intent.moveMouse 100 200] ∧
    (handle_skill_release (handle_skill_start (100, 200) InputState.initial "q" 0 0 none).1
        "q" 1 0).2 =
      [Intent.moveMouse 900 200, Intent.sleep 50,
       Intent.button .Left .Press, Intent.sleep 100, Intent.button .Left .Release,
       Intent.sleep 50, Intent.moveMouse 100 200] ∧
    (handle_skill_release (handle_skill_start (100, 200) InputState.initial "q" 0 0 none).1
        "q" 1 0).1.skill_center = none ∧
    (handle_skill_release (handle_skill_start (100, 200) InputState.initial "q" 0 0 none).1
        "q" 1 0).1.active_skill = none :=
  c7_skill_cast InputState.initial (100, 200) rfl

theorem u32_round (s : Nat) (h : s < 4294967296) :
    u32_from_le (s % 256) (s / 256 % 256) (s / 65536 % 256) (s / 16777216 % 256) = s := by
  unfold u32_from_le
  omega

theorem u64_round (t : Nat) (h : t < 18446744073709551616) :
    u64_from_le (t % 256) (t / 256 % 256) (t / 65536 % 256) (t / 16777216 % 256)
      (t / 4294967296 % 256) (t / 1099511627776 % 256) (t / 281474976710656 % 256)
      (t / 72057594037927936 % 256) = t := by
  unfold u64_from_le
  omega

theorem parse_bin_reliable_cancel (s k : Nat) (h : s < 4294967296) :
    parse_bin ([171, 0x16] ++ u32_to_le s ++ [k]) =
      some (InputMessage.SkillCancel (char_string k) (some s), some s) := by
  show parse_bin [171, 22, s % 256, s / 256 % 256, s / 65536 % 256, s / 16777216 % 256, k] = _
  rw [show parse_bin [171, 22, s % 256, s / 256 % 256, s / 65536 % 256, s / 16777216 % 256, k] =
      some (InputMessage.SkillCancel (char_string k)
        (some (u32_from_le (s % 256) (s / 256 % 256) (s / 65536 % 256) (s / 16777216 % 256))),
       some (u32_from_le (s % 256) (s / 256 % 256) (s / 65536 % 256) (s / 16777216 % 256)))
    from rfl]
  rw [u32_round s h]

theorem parse_bin_ping (t : Nat) (h : t < 18446744073709551616) :
    parse_bin ([171, 0x07] ++ u64_to_le t) = some (InputMessage.Ping t, none) := by
  show parse_bin [171, 7, t % 256, t / 256 % 256, t / 65536 % 256, t / 16777216 % 256,
    t / 4294967296 % 256, t / 1099511627776 % 256, t / 281474976710656 % 256,
    t / 72057594037927936 % 256] = _
  rw [show parse_bin [171, 7, t % 256, t / 256 % 256, t / 65536 % 256, t / 16777216 % 256,
      t / 4294967296 % 256, t / 1099511627776 % 256, t / 281474976710656 % 256,
      t / 72057594037927936 % 256] =
      some (InputMessage.Ping (u64_from_le (t % 256) (t / 256 % 256) (t / 65536 % 256)
        (t / 16777216 % 256) (t / 4294967296 % 256) (t / 1099511627776 % 256)
        (t / 281474976710656 % 256) (t / 72057594037927936 % 256)), none) from rfl]
  rw [u64_round t h]

theorem mem_dedup_push (p : List Nat) (s : Nat) (h : s ∉ p) : s ∈ (seq_dedup p s).2 := by
  unfold seq_dedup
  rw [if_neg h]
  by_cases hc : MAX_PROCESSED_SEQS < (p ++ [s]).length
  · simp only [if_pos hc]
    cases p with
    | nil => simp [MAX_PROCESSED_SEQS] at hc
    | cons a t => simp
  · simp only [if_neg hc]
    simp

/-- C4: the dedup window invariant — starting from a window of at most
100 entries, an admission leaves at most 100 entries; and a fresh
sequence admitted into a full window of exactly 100 entries evicts
exactly the oldest (the VecDeque front), keeping strict FIFO order. -/
theorem c4_window_bound (p : List Nat) (s : Nat) (hlen : p.length ≤ 100) :
    ((seq_dedup p s).2).length ≤ 100 ∧
    (p.length = 100 → s ∉ p → (seq_dedup p s).2 = p.tail ++ [s]) := by
  unfold seq_dedup
  by_cases hmem : s ∈ p
  · rw [if_pos hmem]
    exact ⟨hlen, fun _ hne => absurd hmem hne⟩
  · rw [if_neg hmem]
    constructor
    · by_cases hc : MAX_PROCESSED_SEQS < (p ++ [s]).length
      · simp only [if_pos hc]
        simp only [List.length_tail, List.length_append, List.length_singleton]
        omega
      · simp only [if_neg hc]
        simp only [MAX_PROCESSED_SEQS, List.length_append, List.length_singleton] at hc ⊢
        omega
    · intro h100 _
      have hcc : MAX_PROCESSED_SEQS < (p ++ [s]).length := by
        simp only [MAX_PROCESSED_SEQS, List.length_append, List.length_singleton, h100]
        omega
      simp only [if_pos hcc]
      cases p with
      | nil => simp at h100
      | cons a t => simp

/-- Witness for C4 at a full window of the 100 sequence numbers
0..99 and the fresh sequence 200. -/
theorem c4_window_bound_witness :
    ((seq_dedup (List.range 100) 200).2).length ≤ 100 ∧
    ((List.range 100).length = 100 → 200 ∉ List.range 100 →
      (seq_dedup (List.range 100) 200).2 = (List.range 100).tail ++ [200]) :=
  c4_window_bound (List.range 100) 200 (by simp)

set_option maxRecDepth 8000 in
/-- C3 counterexample: within one session, sequence 0 is admitted as
Fresh, then the 100 sequences 1..100 are admitted; the window (capacity
100) evicts 0, and a later admission of sequence 0 is Fresh again — not
Duplicate — so the message would be reapplied.  Both admissions of 0
return fresh = true. -/
theorem c3_counterexample :
    (seq_dedup [] 0).1 = true ∧
    (seq_dedup (((List.range 100).map (fun n => n + 1)).foldl
        (fun w n => (seq_dedup w n).2) (seq_dedup [] 0).2) 0).1 = true := by
  constructor
  · rfl
  · decide

theorem sd_dup (p : List Nat) (s : Nat) (h : s ∈ p) : seq_dedup p s = (false, p) := by
  unfold seq_dedup
  rw [if_pos h]

theorem sd_fresh (p : List Nat) (s : Nat) (h : s ∉ p) : (seq_dedup p s).1 = true := by
  unfold seq_dedup
  rw [if_neg h]

theorem apply_message_skill_cancel (ib : Bool) (dc : Int × Int) (inp : InputState)
    (key : String) (q : Option Nat) :
    apply_message ib dc inp (some (InputMessage.SkillCancel key q)) =
      ((handle_skill_cancel inp key).1, (handle_skill_cancel inp key).2, []) := rfl

theorem apply_message_ping (ib : Bool) (dc : Int × Int) (inp : InputState) (ts : Nat) :
    apply_message ib dc inp (some (InputMessage.Ping ts)) =
      (inp, [],
       [if ib then Reply.raw (build_binary_pong ts) else Reply.json (pong_json ts)]) := rfl

theorem parse_bin_reliable_button (s kb pb : Nat) (h : s < 4294967296) :
    parse_bin ([171, 0x12] ++ u32_to_le s ++ [1, kb, pb, 0]) =
      some (InputMessage.Button (utf8_lossy [kb]) (pb != 0) none (some s), some s) := by
  show parse_bin [171, 18, s % 256, s / 256 % 256, s / 65536 % 256, s / 16777216 % 256,
    1, kb, pb, 0] = _
  rw [show parse_bin [171, 18, s % 256, s / 256 % 256, s / 65536 % 256, s / 16777216 % 256,
      1, kb, pb, 0] =
      some (InputMessage.Button (utf8_lossy [kb]) (pb != 0) none
        (some (u32_from_le (s % 256) (s / 256 % 256) (s / 65536 % 256) (s / 16777216 % 256))),
       some (u32_from_le (s % 256) (s / 256 % 256) (s / 65536 % 256) (s / 16777216 % 256)))
    from rfl]
  rw [u32_round s h]

theorem parse_bin_reliable_release (s k d0 d1 d2 d3 e0 e1 e2 e3 : Nat) (h : s < 4294967296) :
    parse_bin ([171, 0x15] ++ u32_to_le s ++ [k, d0, d1, d2, d3, e0, e1, e2, e3]) =
      some (InputMessage.SkillRelease (char_string k) (f32_from_le d0 d1 d2 d3)
        (f32_from_le e0 e1 e2 e3) (some s), some s) := by
  show parse_bin [171, 21, s % 256, s / 256 % 256, s / 65536 % 256, s / 16777216 % 256,
    k, d0, d1, d2, d3, e0, e1, e2, e3] = _
  rw [show parse_bin [171, 21, s % 256, s / 256 % 256, s / 65536 % 256, s / 16777216 % 256,
      k, d0, d1, d2, d3, e0, e1, e2, e3] =
      some (InputMessage.SkillRelease (char_string k) (f32_from_le d0 d1 d2 d3)
        (f32_from_le e0 e1 e2 e3)
        (some (u32_from_le (s % 256) (s / 256 % 256) (s / 65536 % 256) (s / 16777216 % 256))),
       some (u32_from_le (s % 256) (s / 256 % 256) (s / 65536 % 256) (s / 16777216 % 256)))
    from rfl]
  rw [u32_round s h]

theorem deserialize_button_seq (k : String) (p : Bool) (s : Nat) (h : s < 4294967296) :
    deserialize_input_message (JVal.obj [("type", JVal.str "button"), ("key", JVal.str k),
        ("pressed", JVal.bool p), ("seq", JVal.num (s : ℚ))]) =
      some (InputMessage.Button k p none (some s)) := by
  simp [deserialize_input_message, jField, jStr, jBool, jOptField, jU32, h]

theorem deserialize_release_seq (k : String) (dx dy : ℚ) (s : Nat) (h : s < 4294967296) :
    deserialize_input_message (JVal.obj [("type", JVal.str "skill_release"),
        ("key", JVal.str k), ("dx", JVal.num dx), ("dy", JVal.num dy),
        ("seq", JVal.num (s : ℚ))]) =
      some (InputMessage.SkillRelease k dx dy (some s)) := by
  simp [deserialize_input_message, jField, jStr, jF32, jOptField, jU32, h]

theorem deserialize_cancel_seq (k : String) (s : Nat) (h : s < 4294967296) :
    deserialize_input_message (JVal.obj [("type", JVal.str "skill_cancel"),
        ("key", JVal.str k), ("seq", JVal.num (s : ℚ))]) =
      some (InputMessage.SkillCancel k (some s)) := by
  simp [deserialize_input_message, jField, jStr, jOptField, jU32, h]

theorem step_reliable_raw (jp : List Nat → Option JVal) (dc : Int × Int) (now : Nat)
    (st : ServerState) (src : Nat) (buf : List Nat) (s : Nat) (m : InputMessage)
    (hsrc : st.last_client = some src)
    (hbin : (match buf with | b :: _ => b == MAGIC | [] => false) = true)
    (hparse : parse_bin buf = some (m, some s))
    (hreps : ∀ inp, (apply_message true dc inp (some m)).2.2 = []) :
    ack_and_dedup jp dc now st src buf s (Reply.raw (build_binary_ack s)) true := by
  unfold ack_and_dedup
  unfold server_step
  rw [if_neg (show ¬(st.last_client ≠ some src) from by simp [hsrc])]
  simp only [hbin, if_true, hparse]
  by_cases hmem : s ∈ st.processed_seqs
  · rw [sd_dup st.processed_seqs s hmem]
    rw [if_neg (show ¬(((false, st.processed_seqs) : Bool × List Nat).1 = true) from by simp)]
    exact ⟨by trivial, fun _ => ⟨rfl, rfl⟩, fun h => absurd hmem h⟩
  · rw [if_pos (sd_fresh st.processed_seqs s hmem)]
    simp only [hreps]
    exact ⟨by trivial, fun h => absurd h hmem, fun _ => mem_dedup_push st.processed_seqs s hmem⟩

theorem step_reliable_json (jp : List Nat → Option JVal) (dc : Int × Int) (now : Nat)
    (st : ServerState) (src : Nat) (buf : List Nat) (s : Nat) (m : InputMessage)
    (hsrc : st.last_client = some src)
    (hpb : (match buf with | b :: _ => b == MAGIC | [] => false) = false)
    (hdec : (jp buf).bind deserialize_input_message = some m)
    (hseq : (match m with
      | InputMessage.Button _ _ _ q => q
      | InputMessage.SkillRelease _ _ _ q => q
      | InputMessage.SkillCancel _ q => q
      | _ => none) = some s)
    (hreps : ∀ inp, (apply_message false dc inp (some m)).2.2 = []) :
    ack_and_dedup jp dc now st src buf s (Reply.json (ack_json s)) false := by
  unfold ack_and_dedup
  unfold server_step
  rw [if_neg (show ¬(st.last_client ≠ some src) from by simp [hsrc])]
  simp only [hpb, Bool.false_eq_true, if_false, hdec]
  cases m with
  | Joystick x y => simp at hseq
  | SkillStart k ox oy mods => simp at hseq
  | SkillDrag k dx dy dist sm => simp at hseq
  | Ping ts => simp at hseq
  | Button k2 p2 mods2 q2 =>
    have hq : q2 = some s := hseq
    subst hq
    by_cases hmem : s ∈ st.processed_seqs
    · simp only [sd_dup st.processed_seqs s hmem, Bool.false_eq_true, if_false]
      exact ⟨by trivial, fun _ => ⟨by trivial, by trivial⟩, fun h => absurd hmem h⟩
    · simp only [sd_fresh st.processed_seqs s hmem, eq_self_iff_true, if_true, hreps]
      exact ⟨by trivial, fun h => absurd h hmem, fun _ => mem_dedup_push st.processed_seqs s hmem⟩
  | SkillRelease k2 dx2 dy2 q2 =>
    have hq : q2 = some s := hseq
    subst hq
    by_cases hmem : s ∈ st.processed_seqs
    · simp only [sd_dup st.processed_seqs s hmem, Bool.false_eq_true, if_false]
      exact ⟨by trivial, fun _ => ⟨by trivial, by trivial⟩, fun h => absurd hmem h⟩
    · simp only [sd_fresh st.processed_seqs s hmem, eq_self_iff_true, if_true, hreps]
      exact ⟨by trivial, fun h => absurd h hmem, fun _ => mem_dedup_push st.processed_seqs s hmem⟩
  | SkillCancel k2 q2 =>
    have hq : q2 = some s := hseq
    subst hq
    by_cases hmem : s ∈ st.processed_seqs
    · simp only [sd_dup st.processed_seqs s hmem, Bool.false_eq_true, if_false]
      exact ⟨by trivial, fun _ => ⟨by trivial, by trivial⟩, fun h => absurd hmem h⟩
    · simp only [sd_fresh st.processed_seqs s hmem, eq_self_iff_true, if_true, hreps]
      exact ⟨by trivial, fun h => absurd h hmem, fun _ => mem_dedup_push st.processed_seqs s hmem⟩

/-- C3 amended: for every reliable message kind of both wire families —
the binary ReliableButton (0x12), ReliableSkillRelease (0x15) and
ReliableSkillCancel (0x16) datagrams, and the text button,
skill_release and skill_cancel records carrying a seq field — an
admission of sequence number s in the current session sends the
acknowledgement for s as the iteration's only reply, binary ack for a
binary inbound datagram and the JSON ack record for a text inbound
datagram, regardless of duplicate status; while s is still in the
dedup window the admission is a duplicate (the window, the whole input
state and the intent list are unchanged — the message is not
reapplied); when s is not in the window the admission is fresh and s
enters the window.  (The original claim fails without the
window-membership condition because the 100-entry FIFO window evicts
old entries — see the counterexample.) -/
theorem c3_amended (jp : List Nat → Option JVal) (dc : Int × Int) (now : Nat)
    (st : ServerState) (src : Nat) (s : Nat)
    (kb pb : Nat) (k d0 d1 d2 d3 e0 e1 e2 e3 : Nat) (kc : Nat)
    (pbufB pbufR pbufC : List Nat) (kB : String) (pB : Bool)
    (kR : String) (dxR dyR : ℚ) (kC : String)
    (hsrc : st.last_client = some src) (hs : s < 4294967296)
    (hpbB : (match pbufB with | b :: _ => b == MAGIC | [] => false) = false)
    (hjpB : jp pbufB = some (JVal.obj [("type", JVal.str "button"), ("key", JVal.str kB),
      ("pressed", JVal.bool pB), ("seq", JVal.num (s : ℚ))]))
    (hpbR : (match pbufR with | b :: _ => b == MAGIC | [] => false) = false)
    (hjpR : jp pbufR = some (JVal.obj [("type", JVal.str "skill_release"),
      ("key", JVal.str kR), ("dx", JVal.num dxR), ("dy", JVal.num dyR),
      ("seq", JVal.num (s : ℚ))]))
    (hpbC : (match pbufC with | b :: _ => b == MAGIC | [] => false) = false)
    (hjpC : jp pbufC = some (JVal.obj [("type", JVal.str "skill_cancel"),
      ("key", JVal.str kC), ("seq", JVal.num (s : ℚ))])) :
    ack_and_dedup jp dc now st src ([171, 0x12] ++ u32_to_le s ++ [1, kb, pb, 0]) s
      (Reply.raw (build_binary_ack s)) true ∧
    ack_and_dedup jp dc now st src
      ([171, 0x15] ++ u32_to_le s ++ [k, d0, d1, d2, d3, e0, e1, e2, e3]) s
      (Reply.raw (build_binary_ack s)) true ∧
    ack_and_dedup jp dc now st src ([171, 0x16] ++ u32_to_le s ++ [kc]) s
      (Reply.raw (build_binary_ack s)) true ∧
    ack_and_dedup jp dc now st src pbufB s (Reply.json (ack_json s)) false ∧
    ack_and_dedup jp dc now st src pbufR s (Reply.json (ack_json s)) false ∧
    ack_and_dedup jp dc now st src pbufC s (Reply.json (ack_json s)) false := by
  refine ⟨?_, ?_, ?_, ?_, ?_, ?_⟩
  · exact step_reliable_raw jp dc now st src _ s _ hsrc rfl
      (parse_bin_reliable_button s kb pb hs) (fun _ => rfl)
  · exact step_reliable_raw jp dc now st src _ s _ hsrc rfl
      (parse_bin_reliable_release s k d0 d1 d2 d3 e0 e1 e2 e3 hs) (fun _ => rfl)
  · exact step_reliable_raw jp dc now st src _ s _ hsrc rfl
      (parse_bin_reliable_cancel s kc hs) (fun _ => rfl)
  · exact step_reliable_json jp dc now st src pbufB s
      (InputMessage.Button kB pB none (some s)) hsrc hpbB
      (by rw [hjpB, Option.some_bind]; exact deserialize_button_seq kB pB s hs)
      rfl (fun _ => rfl)
  · exact step_reliable_json jp dc now st src pbufR s
      (InputMessage.SkillRelease kR dxR dyR (some s)) hsrc hpbR
      (by rw [hjpR, Option.some_bind]; exact deserialize_release_seq kR dxR dyR s hs)
      rfl (fun _ => rfl)
  · exact step_reliable_json jp dc now st src pbufC s
      (InputMessage.SkillCancel kC (some s)) hsrc hpbC
      (by rw [hjpC, Option.some_bind]; exact deserialize_cancel_seq kC s hs)
      rfl (fun _ => rfl)

/-- Witness for C3 amended: session address 3, sequence 7 (already in
the window), key q: one datagram of each of the six reliable kinds —
the three binary ones and, through the fixture parse table, the three
text ones. -/
theorem c3_amended_witness :
    ack_and_dedup sample_json_table (0, 0) 5 ⟨InputState.initial, some 3, 0, false, [7]⟩ 3
      ([171, 0x12] ++ u32_to_le 7 ++ [1, 113, 1, 0]) 7 (Reply.raw (build_binary_ack 7)) true ∧
    ack_and_dedup sample_json_table (0, 0) 5 ⟨InputState.initial, some 3, 0, false, [7]⟩ 3
      ([171, 0x15] ++ u32_to_le 7 ++ [113, 0, 0, 0, 0, 0, 0, 0, 0]) 7
      (Reply.raw (build_binary_ack 7)) true ∧
    ack_and_dedup sample_json_table (0, 0) 5 ⟨InputState.initial, some 3, 0, false, [7]⟩ 3
      ([171, 0x16] ++ u32_to_le 7 ++ [113]) 7 (Reply.raw (build_binary_ack 7)) true ∧
    ack_and_dedup sample_json_table (0, 0) 5 ⟨InputState.initial, some 3, 0, false, [7]⟩ 3
      [1] 7 (Reply.json (ack_json 7)) false ∧
    ack_and_dedup sample_json_table (0, 0) 5 ⟨InputState.initial, some 3, 0, false, [7]⟩ 3
      [2] 7 (Reply.json (ack_json 7)) false ∧
    ack_and_dedup sample_json_table (0, 0) 5 ⟨InputState.initial, some 3, 0, false, [7]⟩ 3
      [3] 7 (Reply.json (ack_json 7)) false :=
  c3_amended sample_json_table (0, 0) 5 ⟨InputState.initial, some 3, 0, false, [7]⟩ 3 7
    113 1 113 0 0 0 0 0 0 0 0 113 [1] [2] [3] "q" true "q" 0 0 "q"
    rfl (by norm_num) rfl rfl rfl rfl rfl rfl

theorem deserialize_ping (t : Nat) (h : t < 18446744073709551616) :
    deserialize_input_message (JVal.obj [("type", JVal.str "ping"),
        ("timestamp", JVal.num (t : ℚ))]) =
      some (InputMessage.Ping t) := by
  simp [deserialize_input_message, jField, jU64, jStr, h]

/-- C8: a Ping carrying timestamp t elicits exactly one Pong carrying
the same t, in the same wire family as the request — the 10-byte binary
pong for a binary ping, the JSON record with type pong and timestamp t
for a text ping — and the loop state is otherwise untouched: the input
state machine and the dedup window are exactly as before (only the
heartbeat instant and the diagnostic mode flag move), and no input
intent is emitted. -/
theorem c8_ping_pong (jp : List Nat → Option JVal) (dc : Int × Int) (now : Nat)
    (st : ServerState) (src : Nat) (t : Nat) (pbuf : List Nat)
    (hsrc : st.last_client = some src) (ht : t < 18446744073709551616)
    (hpb : (match pbuf with | b :: _ => b == MAGIC | [] => false) = false)
    (hjp : jp pbuf = some (JVal.obj [("type", JVal.str "ping"),
      ("timestamp", JVal.num (t : ℚ))])) :
    server_step jp dc now st src ([171, 0x07] ++ u64_to_le t) =
      ({st with last_heartbeat := now, client_extreme_mode := true},
       [Reply.raw (build_binary_pong t)], []) ∧
    server_step jp dc now st src pbuf =
      ({st with last_heartbeat := now, client_extreme_mode := false},
       [Reply.json (pong_json t)], []) := by
  constructor
  · have hbin : (match ([171, 0x07] ++ u64_to_le t : List Nat) with
      | b :: _ => b == MAGIC | [] => false) = true := rfl
    have hparse := parse_bin_ping t ht
    unfold server_step
    rw [if_neg (show ¬(st.last_client ≠ some src) from by simp [hsrc])]
    simp only [hbin, if_true, hparse, apply_message_ping, eq_self_iff_true]
  · have hdecode : (jp pbuf).bind deserialize_input_message = some (InputMessage.Ping t) := by
      rw [hjp, Option.some_bind, deserialize_ping t ht]
    unfold server_step
    rw [if_neg (show ¬(st.last_client ≠ some src) from by simp [hsrc])]
    simp only [hpb, Bool.false_eq_true, if_false, hdecode, apply_message_ping]

/-- Witness for C8: timestamp 42, session address 3, text ping from a
one-byte non-magic datagram whose JSON parse is the ping record. -/
theorem c8_ping_pong_witness :
    server_step
        (fun _ => some (JVal.obj [("type", JVal.str "ping"),
          ("timestamp", JVal.num ((42 : Nat) : ℚ))]))
        (0, 0) 5 ⟨InputState.initial, some 3, 0, false, [7]⟩ 3 ([171, 0x07] ++ u64_to_le 42) =
      (⟨InputState.initial, some 3, 5, true, [7]⟩,
       [Reply.raw (build_binary_pong 42)], []) ∧
    server_step
        (fun _ => some (JVal.obj [("type", JVal.str "ping"),
          ("timestamp", JVal.num ((42 : Nat) : ℚ))]))
        (0, 0) 5 ⟨InputState.initial, some 3, 0, false, [7]⟩ 3 [123] =
      (⟨InputState.initial, some 3, 5, false, [7]⟩,
       [Reply.json (pong_json 42)], []) :=
  c8_ping_pong
    (fun _ => some (JVal.obj [("type", JVal.str "ping"),
      ("timestamp", JVal.num ((42 : Nat) : ℚ))]))
    (0, 0) 5 ⟨InputState.initial, some 3, 0, false, [7]⟩ 3 42 [123]
    rfl (by norm_num) rfl rfl

/-- C10: every received datagram — whatever its contents, decodable or
not — refreshes the heartbeat instant, so a tick within the 3-second
window after it never triggers the timeout release; and a datagram from
a new address replaces the session and clears the dedup window before
any decoding, so even an undecodable datagram from a new address takes
over the session (with the dedup window left empty and the input state
untouched, no reply and no intent). -/
theorem c10_heartbeat_session (jp : List Nat → Option JVal) (dc : Int × Int)
    (now now' : Nat) (st : ServerState) (src : Nat) (buf : List Nat)
    (hle : now' ≤ now + HEARTBEAT_TIMEOUT_SECS) :
    (server_step jp dc now st src buf).1.last_heartbeat = now ∧
    server_tick now' (server_step jp dc now st src buf).1 =
      ((server_step jp dc now st src buf).1, []) ∧
    (st.last_client ≠ some src → parse_bin buf = none →
      (jp buf).bind deserialize_input_message = none →
      (server_step jp dc now st src buf).1.last_client = some src ∧
      (server_step jp dc now st src buf).1.processed_seqs = [] ∧
      (server_step jp dc now st src buf).1.input = st.input ∧
      (server_step jp dc now st src buf).2.1 = [] ∧
      (server_step jp dc now st src buf).2.2 = []) := by
  have hhb : (server_step jp dc now st src buf).1.last_heartbeat = now := by
    unfold server_step
    simp only []
    repeat' split
    all_goals rfl
  refine ⟨hhb, ?_, ?_⟩
  · have hnog : ¬((server_step jp dc now st src buf).1.last_client.isSome = true ∧
        HEARTBEAT_TIMEOUT_SECS < now' - (server_step jp dc now st src buf).1.last_heartbeat) := by
      rw [hhb]
      intro hc
      have h2 := hc.2
      simp only [HEARTBEAT_TIMEOUT_SECS] at h2
      simp only [HEARTBEAT_TIMEOUT_SECS] at hle
      omega
    unfold server_tick
    rw [if_neg hnog]
  · intro hnew hb hj
    unfold server_step
    rw [if_pos hnew]
    simp only [hb, hj, ite_self]
    refine ⟨?_, ?_, ?_, ?_, ?_⟩ <;> first | rfl | trivial

/-- Witness for C10: an undecodable one-byte datagram from new address
3 while the session belongs to address 9; tick 3 seconds later. -/
theorem c10_heartbeat_session_witness :
    (server_step (fun _ => none) (0, 0) 5 ⟨InputState.initial, some 9, 0, false, [5]⟩ 3
        [0]).1.last_heartbeat = 5 ∧
    server_tick 8 (server_step (fun _ => none) (0, 0) 5
        ⟨InputState.initial, some 9, 0, false, [5]⟩ 3 [0]).1 =
      ((server_step (fun _ => none) (0, 0) 5
        ⟨InputState.initial, some 9, 0, false, [5]⟩ 3 [0]).1, []) ∧
    ((⟨InputState.initial, some 9, 0, false, [5]⟩ : ServerState).last_client ≠ some 3 →
      parse_bin [0] = none →
      ((fun _ => none : List Nat → Option JVal) [0]).bind deserialize_input_message = none →
      (server_step (fun _ => none) (0, 0) 5 ⟨InputState.initial, some 9, 0, false, [5]⟩ 3
          [0]).1.last_client = some 3 ∧
      (server_step (fun _ => none) (0, 0) 5 ⟨InputState.initial, some 9, 0, false, [5]⟩ 3
          [0]).1.processed_seqs = [] ∧
      (server_step (fun _ => none) (0, 0) 5 ⟨InputState.initial, some 9, 0, false, [5]⟩ 3
          [0]).1.input = (⟨InputState.initial, some 9, 0, false, [5]⟩ : ServerState).input ∧
      (server_step (fun _ => none) (0, 0) 5 ⟨InputState.initial, some 9, 0, false, [5]⟩ 3
          [0]).2.1 = [] ∧
      (server_step (fun _ => none) (0, 0) 5 ⟨InputState.initial, some 9, 0, false, [5]⟩ 3
          [0]).2.2 = []) :=
  c10_heartbeat_session (fun _ => none) (0, 0) 5 8 ⟨InputState.initial, some 9, 0, false, [5]⟩ 3
    [0] (by norm_num [HEARTBEAT_TIMEOUT_SECS])

end TouchServer
